import Mathlib

/-!
# Booking & Installment Lifecycle — verification development

Shallow embedding of the booking/installment payment core of the
rentverse backend (src/src/modules/bookings/bookings.routes.ts, with the
column types of src/src/db/schema/index.ts), together with theorems that
settle the specification claims about it.

Conventions of the embedding:
* Database rows are Lean structures; the database is a `DBState` of lists.
* Monetary amounts are rationals.  The `amount`/`paidAmount` columns are
  declared `decimal(12, 2)` in src/src/db/schema/index.ts, so a value
  persisted into them is rounded to two decimal places; `roundCent` models
  that rounding (round half away from zero, which agrees with half-up for
  the nonnegative amounts that occur here).
* Timestamps that only flow through the code are `Int`; calendar dates,
  which the code compares and advances by months, are `SimpleDate` with
  the month arithmetic of the JavaScript `Date.setMonth` (day kept,
  overflow past the end of the target month rolls into the next month).
* External collaborators (the Xendit gateway, the PDF service) are
  parameters: their outcome is passed into the function that calls them.
* Fresh row ids come from a `nextId` counter in the state.
-/

/-- A calendar date (year, month 1..12, day 1..31). -/
structure SimpleDate where
  year : Int
  month : Nat
  day : Nat
deriving DecidableEq, Repr

/-- Date comparison, `a ≤ b`, as the code's timestamp comparison
(lexicographic on year, month, day). -/
def SimpleDate.ble (a b : SimpleDate) : Bool :=
  decide (a.year < b.year) ||
    (decide (a.year = b.year) &&
      (decide (a.month < b.month) ||
        (decide (a.month = b.month) && decide (a.day ≤ b.day))))

/-- Gregorian leap-year test, as used by the JavaScript date library. -/
def isLeapYear (y : Int) : Bool :=
  y % 4 == 0 && (y % 100 != 0 || y % 400 == 0)

/-- Number of days of month `m` (1..12) of year `y`. -/
def daysInMonth (y : Int) (m : Nat) : Nat :=
  if m == 2 then (if isLeapYear y then 29 else 28)
  else if m == 4 || m == 6 || m == 9 || m == 11 then 30
  else 31

/-- The JavaScript `Date` operation `dueDate.setMonth(dueDate.getMonth() + k)`:
the month index is advanced by `k` (rolling years), the day of month is
kept, and if the day does not exist in the target month the date
overflows into the following month by the excess days.  The embedding
works on calendar dates, i.e. it assumes the server clock is at UTC so
that the parsed ISO date and the local date coincide, as the
specification's scenario does. -/
def jsSetMonthAdd (d : SimpleDate) (k : Nat) : SimpleDate :=
  let t := d.month - 1 + k
  let y := d.year + ((t / 12 : Nat) : Int)
  let m := t % 12 + 1
  if d.day ≤ daysInMonth y m then ⟨y, m, d.day⟩
  else if m == 12 then ⟨y + 1, 1, d.day - daysInMonth y m⟩
  else ⟨y, m + 1, d.day - daysInMonth y m⟩

/-- Rounding of a rational to two decimal places, as performed by the
`decimal(12, 2)` columns of src/src/db/schema/index.ts when a value is
persisted (Postgres `numeric(12,2)`; for the nonnegative amounts handled
by the booking module this is round-half-up). -/
def roundCent (q : ℚ) : ℚ :=
  (⌊q * 100 + 1 / 2⌋ : ℚ) / 100

/-- The `installmentStatusEnum` of src/src/db/schema/index.ts. -/
inductive InstallmentStatus where
  | UNPAID
  | PAID
  | OVERDUE
deriving DecidableEq, Repr

/-- The `paymentStatusEnum` of src/src/db/schema/index.ts. -/
inductive TransactionStatus where
  | PENDING
  | COMPLETED
  | FAILED
  | REFUNDED
deriving DecidableEq, Repr

/-- A row of the `booking_conflicts` table. -/
structure ConflictRecord where
  id : Nat
  propertyId : Nat
  startDate : SimpleDate
  endDate : SimpleDate
  bookingId : Option Nat
deriving DecidableEq, Repr

/-- The `where` clause shared by `checkAvailability` and the re-check in
`createBooking`: the record is for the queried property, its `endDate`
is ≥ the requested start, and its `startDate` is ≤ the requested end
(both endpoints inclusive). -/
def conflictMatches (propertyId : Nat) (startDate endDate : SimpleDate)
    (c : ConflictRecord) : Bool :=
  c.propertyId == propertyId &&
    SimpleDate.ble startDate c.endDate &&
    SimpleDate.ble c.startDate endDate

/-- Result of the availability query. -/
structure AvailabilityResult where
  available : Bool
  conflicts : List ConflictRecord
deriving DecidableEq, Repr

/-- The `checkAvailability` handler of bookings.routes.ts: select the conflict
records matching the inclusive-overlap filter; the property is available
iff none matched, and the matching records are returned. -/
def checkAvailability (recs : List ConflictRecord) (propertyId : Nat)
    (startDate endDate : SimpleDate) : AvailabilityResult :=
  let conflicts := recs.filter (conflictMatches propertyId startDate endDate)
  { available := conflicts.length == 0, conflicts := conflicts }

/-- One element of the `installmentRecords` array built by
`createBooking`: installment `i` (1-based) has amount
`totalAmount / installmentCount` (stored into a `decimal(12,2)` column,
hence `roundCent`), due date `startDate` advanced by `i - 1` months, and
status `UNPAID`. -/
structure InstallmentRecord where
  bookingId : Nat
  installmentNumber : Nat
  amount : ℚ
  dueDate : SimpleDate
  status : InstallmentStatus
deriving DecidableEq, Repr

/-- The installment-schedule loop of `createBooking`
(bookings.routes.ts, the `for (let i = 1; i <= installmentCount; i++)`
loop). -/
def installmentRecords (bookingId : Nat) (totalAmount : ℚ)
    (installmentCount : Nat) (startDate : SimpleDate) :
    List InstallmentRecord :=
  (List.range installmentCount).map fun k =>
    { bookingId := bookingId
      installmentNumber := k + 1
      amount := roundCent (totalAmount / (installmentCount : ℚ))
      dueDate := jsSetMonthAdd startDate k
      status := .UNPAID }

/-- A row of the `properties` table (the fields `createBooking` reads). -/
structure Property where
  id : Nat
  ownerId : Nat
deriving DecidableEq, Repr

/-- A row of the `bookings` table. -/
structure Booking where
  id : Nat
  propertyId : Nat
  tenantId : Nat
  landlordId : Nat
  startDate : SimpleDate
  endDate : SimpleDate
  totalAmount : ℚ
  securityDeposit : Option ℚ
  paymentType : String
  installmentCount : Nat
  status : String
  contractPdfUrl : Option String := none
  contractGeneratedAt : Option Int := none
deriving DecidableEq, Repr

/-- A row of the `leases` table (created by `createBooking` for
compatibility with the invoice system). -/
structure Lease where
  id : Nat
  propertyId : Nat
  tenantId : Nat
  landlordId : Nat
  startDate : SimpleDate
  endDate : SimpleDate
  rentAmount : ℚ
  securityDeposit : Option ℚ
  status : String
  notes : String
deriving DecidableEq, Repr

/-- A row of the `installments` table. -/
structure Installment where
  id : Nat
  bookingId : Nat
  installmentNumber : Nat
  amount : ℚ
  dueDate : SimpleDate
  status : InstallmentStatus
  paidAt : Option Int := none
  paidAmount : Option ℚ := none
  paymentMethod : Option String := none
  xenditInvoiceId : Option String := none
  xenditExternalId : Option String := none
deriving DecidableEq, Repr

instance : Inhabited Installment :=
  ⟨{ id := 0, bookingId := 0, installmentNumber := 0, amount := 0,
     dueDate := ⟨0, 1, 1⟩, status := .UNPAID }⟩

/-- A row of the `invoices` table (created per installment and touched by
`simulatePaymentSuccess`). -/
structure Invoice where
  id : Nat
  leaseId : Nat
  type : String
  amount : ℚ
  dueDate : SimpleDate
  status : String
  memo : String
  paidAt : Option Int := none
deriving DecidableEq, Repr

/-- A row of the `rental_agreements` table. -/
structure RentalAgreement where
  id : Nat
  leaseId : Nat
  pdfUrl : String
  publicId : String
  fileName : String
  fileSize : Nat
deriving DecidableEq, Repr

/-- A row of the `payment_transactions` table. -/
structure PaymentTransaction where
  installmentId : Option Nat
  bookingId : Nat
  amount : ℚ
  paymentMethod : String
  paymentType : String
  xenditInvoiceId : Option String := none
  xenditExternalId : Option String := none
  status : TransactionStatus
  paidAt : Option Int := none
deriving DecidableEq, Repr

/-- The relational store, plus a counter supplying fresh row ids. -/
structure DBState where
  properties : List Property
  bookings : List Booking
  leases : List Lease
  bookingConflicts : List ConflictRecord
  installments : List Installment
  invoices : List Invoice
  rentalAgreements : List RentalAgreement
  paymentTransactions : List PaymentTransaction
  nextId : Nat
deriving DecidableEq, Repr

/-- Result of one request handler: HTTP status, the `success` flag of the
JSON body, the error or message string of the body, and the store after
the handler ran. -/
structure OpResult where
  httpStatus : Nat
  success : Bool
  message : String
  state : DBState
deriving DecidableEq, Repr

/-- Outcome of the external call that creates a Xendit invoice. -/
inductive GatewayOutcome where
  | ok (invoiceId : String) (invoiceUrl : String)
  | err
deriving DecidableEq, Repr

/-- Outcome of the external PDF-generation service. -/
structure PdfResult where
  url : String
  key : String
  fileName : String
  size : Nat
deriving DecidableEq, Repr

/-- The `validPaymentMethods` array of `processInstallmentPayment`
(equal to `paymentMethodEnum` of the schema). -/
def validPaymentMethods : List String :=
  ["BANK_TRANSFER", "CASH", "EWALLET", "CREDIT_CARD"]

/-- Request body of `POST /bookings/create`. -/
structure CreateBookingReq where
  propertyId : Nat
  startDate : SimpleDate
  endDate : SimpleDate
  totalAmount : ℚ
  securityDeposit : Option ℚ
  paymentType : Option String
  installmentCount : Nat
deriving DecidableEq, Repr

/-- The `createBooking` handler of bookings.routes.ts.  `userId` is the
authenticated caller (`req.user?.id`), `pdf` the outcome of the external
PDF-generation service, `now` the clock.  Mirrors the handler step by
step: authentication, payment-type validation, property lookup,
availability re-check, then the inserts of the booking, the lease, the
conflict record, the installments and invoices; PDF generation on
failure falls back to a placeholder contract URL; finally the booking is
updated to `CONFIRMED` with the contract reference and 201 is returned. -/
def createBooking (st : DBState) (userId : Option Nat)
    (req : CreateBookingReq) (pdf : Option PdfResult) (now : Int) :
    OpResult :=
  match userId with
  | none => ⟨401, false, "User not authenticated", st⟩
  | some uid =>
    if !(req.paymentType == some "CASH" || req.paymentType == some "ONLINE") then
      ⟨400, false, "Payment type is required and must be either CASH or ONLINE", st⟩
    else
      match st.properties.find? (fun p => p.id == req.propertyId) with
      | none => ⟨404, false, "Property not found", st⟩
      | some property =>
        let conflicts := st.bookingConflicts.filter
          (conflictMatches req.propertyId req.startDate req.endDate)
        if conflicts.length > 0 then
          ⟨400, false, "Property not available for selected dates", st⟩
        else
          let bookingId := st.nextId
          let leaseId := st.nextId + 1
          let n := req.installmentCount
          let booking : Booking :=
            { id := bookingId, propertyId := req.propertyId, tenantId := uid,
              landlordId := property.ownerId, startDate := req.startDate,
              endDate := req.endDate, totalAmount := req.totalAmount,
              securityDeposit := req.securityDeposit,
              paymentType := (req.paymentType.getD "CASH"),
              installmentCount := n, status := "PENDING" }
          let lease : Lease :=
            { id := leaseId, propertyId := req.propertyId, tenantId := uid,
              landlordId := property.ownerId, startDate := req.startDate,
              endDate := req.endDate,
              rentAmount := roundCent (req.totalAmount / (n : ℚ)),
              securityDeposit := req.securityDeposit, status := "APPROVED",
              notes := "Auto-generated lease for booking " ++ toString bookingId }
          let conflictRec : ConflictRecord :=
            { id := st.nextId + 2, propertyId := req.propertyId,
              startDate := req.startDate, endDate := req.endDate,
              bookingId := some bookingId }
          let recs := installmentRecords bookingId req.totalAmount n req.startDate
          let newInstallments : List Installment := recs.map fun r =>
            { id := st.nextId + 3 + (r.installmentNumber - 1),
              bookingId := r.bookingId,
              installmentNumber := r.installmentNumber, amount := r.amount,
              dueDate := r.dueDate, status := r.status }
          let newInvoices : List Invoice := recs.map fun r =>
            { id := st.nextId + 3 + n + (r.installmentNumber - 1),
              leaseId := leaseId, type := "RENT", amount := r.amount,
              dueDate := r.dueDate, status := "DUE",
              memo := "Installment " ++ toString r.installmentNumber ++ " of "
                ++ toString n ++ " for booking " ++ toString bookingId }
          let contractPdfUrl := match pdf with
            | some r => r.url
            | none => "https://storage.example.com/contracts/"
                ++ toString bookingId ++ ".pdf"
          let agreement : RentalAgreement := match pdf with
            | some r =>
              { id := st.nextId + 3 + 2 * n, leaseId := leaseId,
                pdfUrl := r.url, publicId := r.key, fileName := r.fileName,
                fileSize := r.size }
            | none =>
              { id := st.nextId + 3 + 2 * n, leaseId := leaseId,
                pdfUrl := contractPdfUrl,
                publicId := "contract_" ++ toString bookingId,
                fileName := "rental_agreement_" ++ toString bookingId ++ ".pdf",
                fileSize := 1024000 }
          let finalState : DBState :=
            { st with
              bookings := (st.bookings ++ [booking]).map fun b =>
                if b.id == bookingId then
                  { b with
                    contractPdfUrl := some contractPdfUrl,
                    contractGeneratedAt := some now, status := "CONFIRMED" }
                else b,
              leases := st.leases ++ [lease],
              bookingConflicts := st.bookingConflicts ++ [conflictRec],
              installments := st.installments ++ newInstallments,
              invoices := st.invoices ++ newInvoices,
              rentalAgreements := st.rentalAgreements ++ [agreement],
              nextId := st.nextId + 3 + 2 * n + 1 }
          ⟨201, true, "Booking created successfully", finalState⟩

/-- The `finalPaymentMethod` coercion of the cash path: a requested
method is kept only when it is in `validCashMethods = ['CASH']`, so any
other (or absent) requested method is coerced to `CASH`. -/
def finalCashMethod (paymentMethod : Option String) : String :=
  match paymentMethod with
  | some m => if ["CASH"].contains m then m else "CASH"
  | none => "CASH"

/-- The `processInstallmentPayment` handler of bookings.routes.ts.  `keyConfigured`
models the presence of the Xendit secret key in the environment, `gw`
the outcome of the invoice-creation call to the gateway.  The branch
between the cash path and the online path is `booking.paymentType ===
'CASH'` — the payment type fixed when the booking was created. -/
def processInstallmentPayment (st : DBState) (userId : Option Nat)
    (installmentId : Option Nat) (paymentMethod : Option String)
    (now : Int) (keyConfigured : Bool) (gw : GatewayOutcome) : OpResult :=
  match userId with
  | none => ⟨401, false, "User not authenticated", st⟩
  | some uid =>
  match installmentId with
  | none => ⟨400, false, "Installment ID is required", st⟩
  | some iid =>
  if paymentMethod.any (fun m => !(validPaymentMethods.contains m)) then
    ⟨400, false, "Invalid payment method", st⟩
  else
  match st.installments.find? (fun i => i.id == iid) with
  | none => ⟨404, false, "Installment ID not found in database", st⟩
  | some inst =>
  match st.bookings.find? (fun b => b.id == inst.bookingId && b.tenantId == uid) with
  | none =>
    ⟨404, false, "Installment not found or you do not have permission to access it", st⟩
  | some booking =>
  if inst.status == .PAID then
    ⟨400, false, "Installment is already paid", st⟩
  else if booking.paymentType == "CASH" then
    let finalPaymentMethod := finalCashMethod paymentMethod
    let tx : PaymentTransaction :=
      { installmentId := some iid, bookingId := booking.id,
        amount := inst.amount, paymentMethod := finalPaymentMethod,
        paymentType := "CASH", status := .COMPLETED, paidAt := some now }
    ⟨200, true, "Cash payment recorded successfully",
      { st with
        installments := st.installments.map fun x =>
          if x.id == iid then
            { x with
              status := .PAID, paidAt := some now,
              paidAmount := some inst.amount,
              paymentMethod := some finalPaymentMethod }
          else x,
        paymentTransactions := st.paymentTransactions ++ [tx] }⟩
  else
    if !keyConfigured then
      ⟨500, false, "Xendit secret key not configured", st⟩
    else
      let externalId := "installment_" ++ toString iid ++ "_" ++ toString now
      match gw with
      | .err => ⟨500, false, "Failed to create payment invoice", st⟩
      | .ok invoiceId _invoiceUrl =>
        let tx : PaymentTransaction :=
          { installmentId := some iid, bookingId := booking.id,
            amount := inst.amount, paymentMethod := "BANK_TRANSFER",
            paymentType := "ONLINE", xenditInvoiceId := some invoiceId,
            xenditExternalId := some externalId, status := .PENDING }
        ⟨200, true, "Payment invoice created successfully",
          { st with
            installments := st.installments.map fun x =>
              if x.id == iid then
                { x with
                  xenditExternalId := some externalId,
                  xenditInvoiceId := some invoiceId }
              else x,
            paymentTransactions := st.paymentTransactions ++ [tx] }⟩

/-- The `manualPaymentConfirmation` handler of bookings.routes.ts.  `gwStatus` is
the invoice status reported by the optional verification call to the
gateway (`none` when that call was unreachable or not OK, in which case
the code only warns and proceeds). -/
def manualPaymentConfirmation (st : DBState) (userId : Option Nat)
    (installmentId : Nat) (xenditInvoiceId : String)
    (gwStatus : Option String) (now : Int) : OpResult :=
  match userId with
  | none => ⟨401, false, "User not authenticated", st⟩
  | some uid =>
  match st.installments.find?
      (fun i => i.id == installmentId && i.xenditInvoiceId == some xenditInvoiceId) with
  | none => ⟨404, false, "Installment not found or invalid invoice ID", st⟩
  | some inst =>
  match st.bookings.find? (fun b => b.id == inst.bookingId && b.tenantId == uid) with
  | none => ⟨404, false, "Installment not found or invalid invoice ID", st⟩
  | some _booking =>
  if inst.status == .PAID then
    ⟨400, false, "Installment already paid", st⟩
  else
    match gwStatus with
    | some s =>
      if s != "PAID" then
        ⟨400, false, "Payment not completed", st⟩
      else
        ⟨200, true, "Payment confirmed manually", manualMarkPaid st installmentId inst now⟩
    | none =>
      ⟨200, true, "Payment confirmed manually", manualMarkPaid st installmentId inst now⟩
where
  /-- The two updates performed once verification passed: mark the
  installment `PAID` (paid amount = the installment's own amount, method
  `BANK_TRANSFER`) and complete every payment transaction attached to
  the installment. -/
  manualMarkPaid (st : DBState) (installmentId : Nat) (inst : Installment)
      (now : Int) : DBState :=
    { st with
      installments := st.installments.map fun x =>
        if x.id == installmentId then
          { x with
            status := .PAID, paidAt := some now,
            paidAmount := some inst.amount,
            paymentMethod := some "BANK_TRANSFER" }
        else x,
      paymentTransactions := st.paymentTransactions.map fun t =>
        if t.installmentId == some installmentId then
          { t with status := .COMPLETED, paidAt := some now }
        else t }

/-- The authenticated webhook payload fields the handler reads. -/
structure WebhookData where
  status : String
  externalId : Option String
  amount : ℚ
  paidAt : Int
  paymentMethod : Option String
deriving DecidableEq, Repr

/-- The `handleXenditWebhook` handler of bookings.routes.ts.  `tokenOk` models the
shared-secret header check.  On a `PAID` event the matched installment
is set to `PAID` with paid amount and paid time taken from the webhook
payload (not from the installment row), without checking its current
status; the transactions carrying the external id are completed.  When
no installment matches, the handler returns HTTP status 404. -/
def handleXenditWebhook (st : DBState) (tokenOk : Bool) (w : WebhookData) :
    OpResult :=
  if !tokenOk then
    ⟨401, false, "Invalid webhook token", st⟩
  else
    match w.externalId with
    | some eid =>
      if w.status == "PAID" then
        match st.installments.find? (fun i => i.xenditExternalId == some eid) with
        | none => ⟨404, false, "Installment not found", st⟩
        | some inst =>
          ⟨200, true, "received",
            { st with
              installments := st.installments.map fun x =>
                if x.id == inst.id then
                  { x with
                    status := .PAID, paidAt := some w.paidAt,
                    paidAmount := some w.amount,
                    paymentMethod := some (w.paymentMethod.getD "BANK_TRANSFER") }
                else x,
              paymentTransactions := st.paymentTransactions.map fun t =>
                if t.xenditExternalId == some eid then
                  { t with status := .COMPLETED, paidAt := some w.paidAt }
                else t }⟩
      else ⟨200, true, "received", st⟩
    | none => ⟨200, true, "received", st⟩

/-- The `simulatePaymentSuccess` handler of bookings.routes.ts: finds the
installment by id and external id and marks it `PAID` (method
`CREDIT_CARD`, paid amount = its own amount) without checking its
current status; also flips the invoices whose `leaseId` equals the
installment's `bookingId` and appends a `COMPLETED` transaction. -/
def simulatePaymentSuccess (st : DBState) (installmentId : Nat)
    (externalId : String) (now : Int) : OpResult :=
  match st.installments.find?
      (fun i => i.id == installmentId && i.xenditExternalId == some externalId) with
  | none => ⟨404, false, "Installment not found", st⟩
  | some inst =>
    let tx : PaymentTransaction :=
      { installmentId := some installmentId, bookingId := inst.bookingId,
        amount := inst.amount, paymentMethod := "CREDIT_CARD",
        paymentType := "ONLINE", xenditExternalId := some externalId,
        status := .COMPLETED, paidAt := some now }
    ⟨200, true, "Payment marked as successful",
      { st with
        installments := st.installments.map fun x =>
          if x.id == installmentId then
            { x with
              status := .PAID, paidAt := some now,
              paidAmount := some inst.amount,
              paymentMethod := some "CREDIT_CARD" }
          else x,
        invoices := st.invoices.map fun v =>
          if v.leaseId == inst.bookingId then
            { v with status := "PAID", paidAt := some now }
          else v,
        paymentTransactions := st.paymentTransactions ++ [tx] }⟩

/-- One payment operation against the store: a `payInstallment` request
(cash or online according to the booking), a gateway webhook delivery, a
manual confirmation, or a simulated payment. -/
inductive PayOp where
  | payInst (userId : Option Nat) (installmentId : Option Nat)
      (paymentMethod : Option String) (now : Int) (keyConfigured : Bool)
      (gw : GatewayOutcome)
  | webhook (tokenOk : Bool) (w : WebhookData)
  | manualConfirm (userId : Option Nat) (installmentId : Nat)
      (xenditInvoiceId : String) (gwStatus : Option String) (now : Int)
  | simulate (installmentId : Nat) (externalId : String) (now : Int)
deriving DecidableEq, Repr

/-- Dispatch one payment operation to its handler. -/
def applyPayOp (st : DBState) : PayOp → OpResult
  | .payInst u iid m now key gw => processInstallmentPayment st u iid m now key gw
  | .webhook tok w => handleXenditWebhook st tok w
  | .manualConfirm u iid inv gws now => manualPaymentConfirmation st u iid inv gws now
  | .simulate iid ext now => simulatePaymentSuccess st iid ext now

/-- Run a sequence of payment operations. -/
def runPayOps (st : DBState) : List PayOp → DBState
  | [] => st
  | op :: ops => runPayOps (applyPayOp st op).state ops

/-- Primary key of the `installments` table: row ids are pairwise
distinct. -/
def uniqueInstallmentIds (st : DBState) : Prop :=
  (st.installments.map fun i => i.id).Nodup

/-- The claim C1 invariant: every `PAID` installment has `paidAmount`
equal to its own `amount`. -/
def paidAmountInvariant (st : DBState) : Prop :=
  ∀ inst ∈ st.installments, inst.status = .PAID →
    inst.paidAmount = some inst.amount


/-- Side condition for the webhook handler: a `PAID` webhook that will
match an installment reports exactly that installment's amount.  All
other operations carry no side condition. -/
def webhookAmountOk (st : DBState) : PayOp → Prop
  | .webhook _ w => ∀ eid inst, w.externalId = some eid →
      w.status = "PAID" →
      st.installments.find? (fun i => i.xenditExternalId == some eid)
        = some inst →
      w.amount = inst.amount
  | _ => True

/-- A trace of payment operations all of whose webhooks report matching
amounts, each judged against the store at the moment it executes. -/
def SafeOps (st : DBState) : List PayOp → Prop
  | [] => True
  | op :: ops => webhookAmountOk st op ∧ SafeOps (applyPayOp st op).state ops


/-! ## Demonstration fixtures -/

/-- A property used by the demonstration stores. -/
def demoProperty : Property := { id := 100, ownerId := 5 }

/-- An empty store holding only the demonstration property; used to run
`createBooking` on concrete requests. -/
def demoScheduleState : DBState :=
  { properties := [demoProperty], bookings := [], leases := [],
    bookingConflicts := [], installments := [], invoices := [],
    rentalAgreements := [], paymentTransactions := [], nextId := 300 }

/-- A successful outcome of the PDF service. -/
def demoPdf : PdfResult :=
  { url := "https://cdn.example.com/contract.pdf", key := "k1",
    fileName := "contract.pdf", size := 2048 }


/-! ## Payment demonstration fixtures -/

/-- A `CASH` booking of tenant 1. -/
def demoCashBooking : Booking :=
  { id := 200, propertyId := 100, tenantId := 1, landlordId := 5,
    startDate := ⟨2025, 3, 1⟩, endDate := ⟨2025, 3, 31⟩, totalAmount := 1200,
    securityDeposit := none, paymentType := "CASH", installmentCount := 1,
    status := "CONFIRMED" }

/-- An `ONLINE` booking of tenant 2. -/
def demoOnlineBooking : Booking :=
  { id := 201, propertyId := 100, tenantId := 2, landlordId := 5,
    startDate := ⟨2025, 4, 1⟩, endDate := ⟨2025, 4, 30⟩, totalAmount := 500,
    securityDeposit := none, paymentType := "ONLINE", installmentCount := 1,
    status := "CONFIRMED" }

/-- The unpaid installment of the `CASH` booking. -/
def demoCashInst : Installment :=
  { id := 10, bookingId := 200, installmentNumber := 1, amount := 1200,
    dueDate := ⟨2025, 3, 1⟩, status := .UNPAID }

/-- The unpaid installment of the `ONLINE` booking, carrying gateway
invoice identifiers. -/
def demoOnlineInst : Installment :=
  { id := 20, bookingId := 201, installmentNumber := 1, amount := 500,
    dueDate := ⟨2025, 4, 1⟩, status := .UNPAID,
    xenditInvoiceId := some "inv_20", xenditExternalId := some "ext_20" }

/-- A store with both demonstration bookings and their unpaid
installments. -/
def demoPayState : DBState :=
  { properties := [demoProperty],
    bookings := [demoCashBooking, demoOnlineBooking], leases := [],
    bookingConflicts := [], installments := [demoCashInst, demoOnlineInst],
    invoices := [], rentalAgreements := [], paymentTransactions := [],
    nextId := 300 }

/-- An installment of the `ONLINE` booking that is already `PAID`
(paid at time 10, by bank transfer, with its full amount). -/
def demoPaidInst : Installment :=
  { id := 30, bookingId := 201, installmentNumber := 1, amount := 500,
    dueDate := ⟨2025, 4, 1⟩, status := .PAID, paidAt := some 10,
    paidAmount := some 500, paymentMethod := some "BANK_TRANSFER",
    xenditInvoiceId := some "inv_30", xenditExternalId := some "ext_30" }

/-- A store holding only the already-paid installment. -/
def demoPaidState : DBState :=
  { properties := [demoProperty], bookings := [demoOnlineBooking],
    leases := [], bookingConflicts := [], installments := [demoPaidInst],
    invoices := [], rentalAgreements := [], paymentTransactions := [],
    nextId := 300 }


/-! ## Helper lemmas about the store -/

/-- In a table whose `id` column is nodup (the primary key of the
`installments` table), a row is determined by its id. -/
theorem installment_eq_of_id_eq {l : List Installment}
    (h : (l.map fun i => i.id).Nodup) {a b : Installment}
    (ha : a ∈ l) (hb : b ∈ l) (hid : a.id = b.id) : a = b :=
  List.inj_on_of_nodup_map h ha hb hid

/-- A conditional row update that keeps ids keeps the id column. -/
theorem ids_map_update (l : List Installment) (c : Installment → Bool)
    (u : Installment → Installment) (hid : ∀ x, (u x).id = x.id) :
    ((l.map fun x => if c x then u x else x).map fun i => i.id)
      = l.map fun i => i.id := by
  rw [List.map_map]
  refine List.map_congr_left fun x _ => ?_
  by_cases h : c x <;> simp [h, hid]

/-- If every row produced by `f` satisfies the paid-amount condition,
so does every row of the mapped table. -/
theorem paid_inv_map (l : List Installment) (f : Installment → Installment)
    (h : ∀ x ∈ l, (f x).status = .PAID → (f x).paidAmount = some (f x).amount) :
    ∀ y ∈ l.map f, y.status = .PAID → y.paidAmount = some y.amount := by
  intro y hy
  obtain ⟨x, hx, rfl⟩ := List.mem_map.mp hy
  exact h x hx

/-- A row update that only ever writes status `PAID` (or leaves the
status alone) keeps every `PAID` row `PAID`, position by position. -/
theorem status_preserved_map (l : List Installment)
    (f : Installment → Installment)
    (h : ∀ x, (f x).status = .PAID ∨ (f x).status = x.status) (j : Nat)
    (inst : Installment) (hj : l[j]? = some inst)
    (hs : inst.status = .PAID) :
    ∃ k, (l.map f)[j]? = some k ∧ k.status = .PAID := by
  refine ⟨f inst, ?_, ?_⟩
  · simp [List.getElem?_map, hj]
  · rcases h inst with h1 | h1
    · exact h1
    · rw [h1]; exact hs

/-- Looking an id up after an id-preserving conditional update on that
id returns the updated row. -/
theorem find?_id_map_update (l : List Installment) (iid : Nat)
    (u : Installment → Installment) (hid : ∀ x, (u x).id = x.id) :
    (l.map fun x => if x.id == iid then u x else x).find?
        (fun x => x.id == iid)
      = (l.find? fun x => x.id == iid).map u := by
  induction l with
  | nil => rfl
  | cons a l ih =>
    simp only [List.map_cons]
    by_cases h : (a.id == iid) = true
    · rw [if_pos h]
      have hp : ((u a).id == iid) = true := by
        have h2 := hid a
        simp only [h2]
        exact h
      rw [List.find?_cons_of_pos (p := fun x : Installment => x.id == iid) _ hp,
        List.find?_cons_of_pos (p := fun x : Installment => x.id == iid) _ h]
      rfl
    · rw [if_neg h]
      rw [List.find?_cons_of_neg (p := fun x : Installment => x.id == iid) _ h,
        List.find?_cons_of_neg (p := fun x : Installment => x.id == iid) _ h]
      exact ih

/-! ## Numeric lemmas about the schedule -/

/-- The cent rounding moves a value by at most half a cent. -/
theorem roundCent_close (q : ℚ) : |roundCent q - q| ≤ 1 / 200 := by
  unfold roundCent
  have h1 : (⌊q * 100 + 1 / 2⌋ : ℚ) ≤ q * 100 + 1 / 2 := Int.floor_le _
  have h2 : q * 100 + 1 / 2 < ⌊q * 100 + 1 / 2⌋ + 1 := Int.lt_floor_add_one _
  rw [abs_le]
  constructor <;> [linarith; linarith]

/-- The schedule amounts sum to `count` times the rounded per-installment
amount. -/
theorem installmentRecords_sum (bid : Nat) (total : ℚ) (n : Nat)
    (d : SimpleDate) :
    ((installmentRecords bid total n d).map fun r => r.amount).sum
      = (n : ℚ) * roundCent (total / (n : ℚ)) := by
  unfold installmentRecords
  rw [List.map_map]
  have hconst :
      ((List.range n).map
          ((fun r : InstallmentRecord => r.amount) ∘ fun k =>
            ({ bookingId := bid, installmentNumber := k + 1,
               amount := roundCent (total / (n : ℚ)),
               dueDate := jsSetMonthAdd d k,
               status := .UNPAID } : InstallmentRecord)))
        = List.replicate n (roundCent (total / (n : ℚ))) := by
    rw [show ((fun r : InstallmentRecord => r.amount) ∘ fun k =>
        ({ bookingId := bid, installmentNumber := k + 1,
           amount := roundCent (total / (n : ℚ)),
           dueDate := jsSetMonthAdd d k,
           status := .UNPAID } : InstallmentRecord))
        = fun _ => roundCent (total / (n : ℚ)) from rfl]
    rw [List.map_const', List.length_range]
  rw [hconst, List.sum_replicate, nsmul_eq_mul]

/-! ## Claim C3 — availability check -/

/-- C3: `checkAvailability(propertyId, s2, e2)` reports `available =
false` (returning exactly the conflicting records) precisely when some
conflict record of that property with range `[s1, e1]` satisfies
`e1 ≥ s2` and `s1 ≤ e2`, and reports `available = true` with an empty
conflict list otherwise; adjacent non-overlapping ranges such as
`[Jan 1, Jan 10]` against `[Jan 11, Jan 20]` report available. -/
theorem C3_check_availability :
    (∀ (recs : List ConflictRecord) (pid : Nat) (s2 e2 : SimpleDate),
        ((checkAvailability recs pid s2 e2).available = false ↔
          ∃ c ∈ recs, c.propertyId = pid ∧
            SimpleDate.ble s2 c.endDate = true ∧
            SimpleDate.ble c.startDate e2 = true)
      ∧ ((checkAvailability recs pid s2 e2).available = true →
          (checkAvailability recs pid s2 e2).conflicts = [])
      ∧ (∀ c, c ∈ (checkAvailability recs pid s2 e2).conflicts ↔
            (c ∈ recs ∧ conflictMatches pid s2 e2 c = true)))
  ∧ checkAvailability [⟨0, 7, ⟨2025, 1, 1⟩, ⟨2025, 1, 10⟩, some 3⟩] 7
      ⟨2025, 1, 11⟩ ⟨2025, 1, 20⟩ = ⟨true, []⟩ := by
  constructor
  · intro recs pid s2 e2
    refine ⟨?_, ?_, ?_⟩
    · constructor
      · intro h
        have hne : recs.filter (conflictMatches pid s2 e2) ≠ [] := by
          intro h0
          simp [checkAvailability, h0] at h
        obtain ⟨c, hc⟩ := List.exists_mem_of_ne_nil _ hne
        have hc2 := List.mem_filter.mp hc
        refine ⟨c, hc2.1, ?_⟩
        have := hc2.2
        simp only [conflictMatches, Bool.and_eq_true, beq_iff_eq] at this
        exact ⟨this.1.1, this.1.2, this.2⟩
      · rintro ⟨c, hmem, h1, h2, h3⟩
        have hcm : conflictMatches pid s2 e2 c = true := by
          simp only [conflictMatches, Bool.and_eq_true, beq_iff_eq]
          exact ⟨⟨h1, h2⟩, h3⟩
        have hcf : c ∈ recs.filter (conflictMatches pid s2 e2) :=
          List.mem_filter.mpr ⟨hmem, hcm⟩
        have hlen : (recs.filter (conflictMatches pid s2 e2)).length ≠ 0 := by
          intro h0
          rw [List.length_eq_zero] at h0
          rw [h0] at hcf
          exact (List.not_mem_nil c) hcf
        simp [checkAvailability, hlen]
    · intro h
      simp only [checkAvailability] at h ⊢
      have : (recs.filter (conflictMatches pid s2 e2)).length = 0 := by
        simpa using h
      exact List.length_eq_zero.mp this
    · intro c
      simp only [checkAvailability]
      exact List.mem_filter
  · decide

/-- Witness for C3: on a store holding the single conflict record
`[Jan 1, Jan 10]` for property 7, the overlapping query
`[Jan 5, Jan 15]` is reported unavailable. -/
theorem C3_witness :
    (checkAvailability [⟨0, 7, ⟨2025, 1, 1⟩, ⟨2025, 1, 10⟩, some 3⟩] 7
      ⟨2025, 1, 5⟩ ⟨2025, 1, 15⟩).available = false :=
  (C3_check_availability.1 [⟨0, 7, ⟨2025, 1, 1⟩, ⟨2025, 1, 10⟩, some 3⟩] 7
      ⟨2025, 1, 5⟩ ⟨2025, 1, 15⟩).1.mpr
    ⟨⟨0, 7, ⟨2025, 1, 1⟩, ⟨2025, 1, 10⟩, some 3⟩, by decide, by decide,
      by decide, by decide⟩

/-! ## Claim C4 — installment schedule -/

/-- C4 (amended): a successful `createBooking` with installment count
`N ≥ 1` produces exactly `N` installments, installment `i` having amount
`totalAmount / N` rounded to the cent by the `decimal(12,2)` amount
column, due date `startDate` plus `i - 1` calendar months (same
day-of-month, normalized when the day does not exist), and status
`UNPAID`; the concrete scenario — totalAmount 1200.00, N = 3, start
2025-03-01 — yields three installments of 400.00 due 2025-03-01,
2025-04-01 and 2025-05-01. -/
theorem C4_schedule (bid : Nat) (total : ℚ) (n : Nat) (d : SimpleDate)
    (_hn : 1 ≤ n) :
    ((installmentRecords bid total n d).length = n
      ∧ ∀ i, 1 ≤ i → i ≤ n →
          (installmentRecords bid total n d)[i - 1]? =
            some { bookingId := bid, installmentNumber := i,
                   amount := roundCent (total / (n : ℚ)),
                   dueDate := jsSetMonthAdd d (i - 1), status := .UNPAID })
  ∧ (createBooking demoScheduleState (some 1)
        ⟨100, ⟨2025, 3, 1⟩, ⟨2025, 3, 31⟩, 1200, none, some "CASH", 3⟩
        (some demoPdf) 0).httpStatus = 201
  ∧ ((createBooking demoScheduleState (some 1)
        ⟨100, ⟨2025, 3, 1⟩, ⟨2025, 3, 31⟩, 1200, none, some "CASH", 3⟩
        (some demoPdf) 0).state.installments.map fun i =>
          (i.installmentNumber, i.amount, i.dueDate, i.status))
      = [(1, 400, ⟨2025, 3, 1⟩, .UNPAID), (2, 400, ⟨2025, 4, 1⟩, .UNPAID),
         (3, 400, ⟨2025, 5, 1⟩, .UNPAID)] := by
  refine ⟨⟨?_, ?_⟩, ?_, ?_⟩
  · simp [installmentRecords]
  · intro i h1 hi
    have hlt : i - 1 < n := by omega
    have hidx : (List.range n)[i - 1]? = some (i - 1) := by
      simp [List.getElem?_range, hlt]
    simp only [installmentRecords, List.getElem?_map, hidx, Option.map_some']
    have h2 : i - 1 + 1 = i := by omega
    rw [h2]
  · norm_num [createBooking, demoScheduleState, demoProperty, demoPdf]
  · norm_num [createBooking, demoScheduleState, demoProperty, demoPdf,
      installmentRecords, roundCent, jsSetMonthAdd, daysInMonth, isLeapYear,
      conflictMatches, List.range_succ]

/-- Counterexample to C4 as stated: for totalAmount 100.00 and N = 3 the
stored installment amounts are 33.33 each, which is not the exact
quotient `totalAmount / N = 100/3`. -/
theorem C4_counterexample :
    (createBooking demoScheduleState (some 1)
        ⟨100, ⟨2025, 3, 1⟩, ⟨2025, 3, 31⟩, 100, none, some "CASH", 3⟩
        (some demoPdf) 0).httpStatus = 201
  ∧ ((createBooking demoScheduleState (some 1)
        ⟨100, ⟨2025, 3, 1⟩, ⟨2025, 3, 31⟩, 100, none, some "CASH", 3⟩
        (some demoPdf) 0).state.installments.map fun i => i.amount)
      = [3333 / 100, 3333 / 100, 3333 / 100]
  ∧ (3333 / 100 : ℚ) ≠ 100 / 3 := by
  refine ⟨?_, ?_, by norm_num⟩
  · norm_num [createBooking, demoScheduleState, demoProperty, demoPdf]
  · norm_num [createBooking, demoScheduleState, demoProperty, demoPdf,
      installmentRecords, roundCent, jsSetMonthAdd, daysInMonth, isLeapYear,
      conflictMatches, List.range_succ]

/-- Witness for C4: the schedule of 600.00 over 2 installments starting
2025-06-15 has first installment number 1, amount `roundCent (600/2)`,
due 2025-06-15, unpaid. -/
theorem C4_witness :
    (installmentRecords 1 600 2 ⟨2025, 6, 15⟩)[0]? =
      some { bookingId := 1, installmentNumber := 1,
             amount := roundCent (600 / ((2 : ℕ) : ℚ)),
             dueDate := jsSetMonthAdd ⟨2025, 6, 15⟩ 0,
             status := .UNPAID } :=
  (C4_schedule 1 600 2 ⟨2025, 6, 15⟩ (by norm_num)).1.2 1 (by norm_num)
    (by norm_num)

/-! ## Claim C5 — sum of installment amounts -/

/-- C5 (amended): after schedule generation the installment amounts sum
to `N` times the per-installment amount (`totalAmount / N` rounded to
the cent), so the sum can deviate from `totalAmount` by up to `N/2`
cents — it is not always within one cent. -/
theorem C5_sum_amounts (bid : Nat) (total : ℚ) (n : Nat) (d : SimpleDate)
    (hn : 1 ≤ n) :
    ((installmentRecords bid total n d).map fun r => r.amount).sum
        = (n : ℚ) * roundCent (total / (n : ℚ))
  ∧ |((installmentRecords bid total n d).map fun r => r.amount).sum - total|
        ≤ (n : ℚ) / 200 := by
  have hsum := installmentRecords_sum bid total n d
  refine ⟨hsum, ?_⟩
  rw [hsum]
  have hne : (n : ℚ) ≠ 0 := Nat.cast_ne_zero.mpr (by omega)
  have ht : (n : ℚ) * (total / (n : ℚ)) = total := by field_simp
  have hq := roundCent_close (total / (n : ℚ))
  have key : (n : ℚ) * roundCent (total / (n : ℚ)) - total
      = (n : ℚ) * (roundCent (total / (n : ℚ)) - total / (n : ℚ)) := by
    rw [mul_sub, ht]
  rw [key, abs_mul, abs_of_nonneg (by positivity : (0 : ℚ) ≤ (n : ℚ))]
  calc (n : ℚ) * |roundCent (total / (n : ℚ)) - total / (n : ℚ)|
      ≤ (n : ℚ) * (1 / 200) := mul_le_mul_of_nonneg_left hq (by positivity)
    _ = (n : ℚ) / 200 := by ring

/-- Counterexample to C5 as stated: a booking of 100.00 split into 7
installments stores 14.29 per installment; the stored amounts sum to
100.03, which differs from the total by 3 cents — more than one minimal
currency unit. -/
theorem C5_counterexample :
    (createBooking demoScheduleState (some 1)
        ⟨100, ⟨2025, 3, 1⟩, ⟨2025, 3, 31⟩, 100, none, some "CASH", 7⟩
        (some demoPdf) 0).httpStatus = 201
  ∧ (((createBooking demoScheduleState (some 1)
        ⟨100, ⟨2025, 3, 1⟩, ⟨2025, 3, 31⟩, 100, none, some "CASH", 7⟩
        (some demoPdf) 0).state.installments.map fun i => i.amount).sum : ℚ)
      = 10003 / 100
  ∧ ¬ (|(10003 / 100 : ℚ) - 100| ≤ 1 / 100) := by
  refine ⟨?_, ?_, by norm_num [abs_le]⟩
  · norm_num [createBooking, demoScheduleState, demoProperty, demoPdf]
  · norm_num [createBooking, demoScheduleState, demoProperty, demoPdf,
      installmentRecords, roundCent, jsSetMonthAdd, daysInMonth, isLeapYear,
      conflictMatches, List.range_succ]

/-- Witness for C5: for 600.00 over 2 installments the stored amounts
sum to within 2/200 of the total. -/
theorem C5_witness :
    |((installmentRecords 1 600 2 ⟨2025, 6, 15⟩).map fun r => r.amount).sum
        - 600| ≤ ((2 : ℕ) : ℚ) / 200 :=
  (C5_sum_amounts 1 600 2 ⟨2025, 6, 15⟩ (by norm_num)).2

/-! ## The payment state machine: invariants -/

/-- A mark-paid update (the shape shared by the cash path, the webhook,
manual confirmation and the simulated payment) preserves the paid-amount
invariant when the amount written equals the amount of the targeted
row. -/
theorem paid_inv_mark_update (l : List Installment) (inst : Installment)
    (c : Installment → Bool) (amt : ℚ) (pa : Option Int) (pm : Option String)
    (hnodup : (l.map fun i => i.id).Nodup)
    (hmem : inst ∈ l)
    (hc : ∀ x ∈ l, c x = true → x.id = inst.id)
    (hamt : amt = inst.amount)
    (hinv : ∀ x ∈ l, x.status = .PAID → x.paidAmount = some x.amount) :
    ∀ y ∈ l.map fun x =>
        if c x then
          { x with
            status := .PAID, paidAt := pa, paidAmount := some amt,
            paymentMethod := pm }
        else x,
      y.status = .PAID → y.paidAmount = some y.amount := by
  refine paid_inv_map _ _ fun x hx => ?_
  by_cases h : c x
  · simp only [if_pos h]
    intro _
    have hxeq : x = inst := installment_eq_of_id_eq hnodup hx hmem (hc x hx h)
    simp [hamt, hxeq]
  · simp only [if_neg h]
    exact hinv x hx

/-- The handler `processInstallmentPayment` keeps the id column of the installments
table unchanged. -/
theorem processInstallmentPayment_ids (st : DBState) (u iid : Option Nat)
    (m : Option String) (now : Int) (key : Bool) (gw : GatewayOutcome) :
    ((processInstallmentPayment st u iid m now key gw).state.installments.map
        fun i => i.id)
      = st.installments.map fun i => i.id := by
  unfold processInstallmentPayment
  repeat' split
  all_goals first
    | rfl
    | exact ids_map_update _ _ _ fun x => rfl

/-- The handler `handleXenditWebhook` keeps the id column unchanged. -/
theorem handleXenditWebhook_ids (st : DBState) (tok : Bool)
    (w : WebhookData) :
    ((handleXenditWebhook st tok w).state.installments.map fun i => i.id)
      = st.installments.map fun i => i.id := by
  unfold handleXenditWebhook
  repeat' split
  all_goals first
    | rfl
    | exact ids_map_update _ _ _ fun x => rfl

/-- The handler `manualPaymentConfirmation` keeps the id column unchanged. -/
theorem manualPaymentConfirmation_ids (st : DBState) (u : Option Nat)
    (iid : Nat) (inv : String) (gws : Option String) (now : Int) :
    ((manualPaymentConfirmation st u iid inv gws now).state.installments.map
        fun i => i.id)
      = st.installments.map fun i => i.id := by
  unfold manualPaymentConfirmation manualPaymentConfirmation.manualMarkPaid
  repeat' split
  all_goals first
    | rfl
    | exact ids_map_update _ _ _ fun x => rfl

/-- The handler `simulatePaymentSuccess` keeps the id column unchanged. -/
theorem simulatePaymentSuccess_ids (st : DBState) (iid : Nat) (ext : String)
    (now : Int) :
    ((simulatePaymentSuccess st iid ext now).state.installments.map
        fun i => i.id)
      = st.installments.map fun i => i.id := by
  unfold simulatePaymentSuccess
  repeat' split
  all_goals first
    | rfl
    | exact ids_map_update _ _ _ fun x => rfl

/-- No payment operation changes the id column. -/
theorem applyPayOp_ids (st : DBState) (op : PayOp) :
    ((applyPayOp st op).state.installments.map fun i => i.id)
      = st.installments.map fun i => i.id := by
  cases op with
  | payInst u iid m now key gw =>
    exact processInstallmentPayment_ids st u iid m now key gw
  | webhook tok w => exact handleXenditWebhook_ids st tok w
  | manualConfirm u iid inv gws now =>
    exact manualPaymentConfirmation_ids st u iid inv gws now
  | simulate iid ext now => exact simulatePaymentSuccess_ids st iid ext now

/-- The cash path preserves the paid-amount invariant (it writes the
installment's own amount); the online path touches no paid fields. -/
theorem processInstallmentPayment_paid_inv (st : DBState) (u iid : Option Nat)
    (m : Option String) (now : Int) (key : Bool) (gw : GatewayOutcome)
    (hu : uniqueInstallmentIds st) (hp : paidAmountInvariant st) :
    paidAmountInvariant
      (processInstallmentPayment st u iid m now key gw).state := by
  unfold processInstallmentPayment
  split
  · exact hp
  next uid =>
  split
  · exact hp
  next iid0 =>
  split
  · exact hp
  split
  · exact hp
  next inst hfind =>
  split
  · exact hp
  next booking hbook =>
  split
  · exact hp
  split
  · have hmem := List.mem_of_find?_eq_some hfind
    have hc : ∀ x ∈ st.installments, (x.id == iid0) = true →
        x.id = inst.id := by
      intro x hx hcx
      have h1 : x.id = iid0 := by simpa using hcx
      have h2 : inst.id = iid0 := by simpa using List.find?_some hfind
      rw [h1, h2]
    exact paid_inv_mark_update st.installments inst _ inst.amount (some now)
      _ hu hmem hc rfl hp
  split
  · exact hp
  split
  · exact hp
  · refine paid_inv_map _ _ fun x hx => ?_
    by_cases h : (x.id == iid0) = true
    · simp only [if_pos h]
      exact hp x hx
    · simp only [if_neg h]
      exact hp x hx

/-- The webhook handler preserves the paid-amount invariant exactly when
the webhook reports the matched installment's own amount. -/
theorem handleXenditWebhook_paid_inv (st : DBState) (tok : Bool)
    (w : WebhookData) (hu : uniqueInstallmentIds st)
    (hp : paidAmountInvariant st)
    (hok : ∀ eid inst, w.externalId = some eid → w.status = "PAID" →
        st.installments.find? (fun i => i.xenditExternalId == some eid)
          = some inst →
        w.amount = inst.amount) :
    paidAmountInvariant (handleXenditWebhook st tok w).state := by
  unfold handleXenditWebhook
  split
  · exact hp
  split
  next eid heq =>
    split
    next hif =>
      split
      · exact hp
      next inst hfind =>
        have hmem := List.mem_of_find?_eq_some hfind
        have hc : ∀ x ∈ st.installments, (x.id == inst.id) = true →
            x.id = inst.id := by
          intro x hx hcx
          simpa using hcx
        have hamt : w.amount = inst.amount :=
          hok eid inst heq (by simpa using hif) hfind
        exact paid_inv_mark_update st.installments inst _ w.amount
          (some w.paidAt) _ hu hmem hc hamt hp
    next hif => exact hp
  · exact hp

/-- Manual confirmation preserves the paid-amount invariant (it writes
the installment's own amount). -/
theorem manualPaymentConfirmation_paid_inv (st : DBState) (u : Option Nat)
    (iid : Nat) (inv : String) (gws : Option String) (now : Int)
    (hu : uniqueInstallmentIds st) (hp : paidAmountInvariant st) :
    paidAmountInvariant
      (manualPaymentConfirmation st u iid inv gws now).state := by
  unfold manualPaymentConfirmation manualPaymentConfirmation.manualMarkPaid
  split
  · exact hp
  next uid =>
  split
  · exact hp
  next inst hfind =>
  split
  · exact hp
  next booking hbook =>
  split
  · exact hp
  have hmem := List.mem_of_find?_eq_some hfind
  have hfs := List.find?_some hfind
  have hiid : inst.id = iid := by
    have := (Bool.and_eq_true _ _).mp hfs
    simpa using this.1
  have hc : ∀ x ∈ st.installments, (x.id == iid) = true → x.id = inst.id := by
    intro x hx hcx
    have h1 : x.id = iid := by simpa using hcx
    rw [h1, hiid]
  split
  next gs =>
    split
    · exact hp
    · exact paid_inv_mark_update st.installments inst _ inst.amount (some now)
        _ hu hmem hc rfl hp
  · exact paid_inv_mark_update st.installments inst _ inst.amount (some now)
      _ hu hmem hc rfl hp

/-- The simulated payment preserves the paid-amount invariant (it writes
the installment's own amount). -/
theorem simulatePaymentSuccess_paid_inv (st : DBState) (iid : Nat)
    (ext : String) (now : Int) (hu : uniqueInstallmentIds st)
    (hp : paidAmountInvariant st) :
    paidAmountInvariant (simulatePaymentSuccess st iid ext now).state := by
  unfold simulatePaymentSuccess
  split
  · exact hp
  next inst hfind =>
  have hmem := List.mem_of_find?_eq_some hfind
  have hfs := List.find?_some hfind
  have hiid : inst.id = iid := by
    have := (Bool.and_eq_true _ _).mp hfs
    simpa using this.1
  have hc : ∀ x ∈ st.installments, (x.id == iid) = true → x.id = inst.id := by
    intro x hx hcx
    have h1 : x.id = iid := by simpa using hcx
    rw [h1, hiid]
  exact paid_inv_mark_update st.installments inst _ inst.amount (some now)
    _ hu hmem hc rfl hp

/-- A conditional update whose updater either writes status `PAID` or
keeps the status keeps every `PAID` row `PAID`, position by position. -/
theorem status_preserved_map_if (l : List Installment)
    (c : Installment → Bool) (u : Installment → Installment)
    (hu : ∀ x, (u x).status = .PAID ∨ (u x).status = x.status) (j : Nat)
    (inst : Installment) (hj : l[j]? = some inst)
    (hs : inst.status = .PAID) :
    ∃ k, (l.map fun x => if c x then u x else x)[j]? = some k ∧
      k.status = .PAID := by
  refine status_preserved_map l _ (fun x => ?_) j inst hj hs
  by_cases h : c x
  · simp only [if_pos h]
    exact hu x
  · simp only [if_neg h]
    first
    | exact Or.inr rfl
    | exact Or.inr trivial

/-- The handler `processInstallmentPayment` never moves a `PAID` installment out of
`PAID`. -/
theorem processInstallmentPayment_paid_stays (st : DBState)
    (u iid : Option Nat) (m : Option String) (now : Int) (key : Bool)
    (gw : GatewayOutcome) (j : Nat) (inst : Installment)
    (hj : st.installments[j]? = some inst) (hs : inst.status = .PAID) :
    ∃ k, (processInstallmentPayment st u iid m now key
        gw).state.installments[j]? = some k ∧ k.status = .PAID := by
  unfold processInstallmentPayment
  repeat' split
  all_goals first
    | exact ⟨inst, hj, hs⟩
    | (refine status_preserved_map_if _ _ _ (fun x => ?_) j inst hj hs;
        first
        | exact Or.inl rfl
        | exact Or.inr rfl)

/-- The handler `handleXenditWebhook` never moves a `PAID` installment out of
`PAID`. -/
theorem handleXenditWebhook_paid_stays (st : DBState) (tok : Bool)
    (w : WebhookData) (j : Nat) (inst : Installment)
    (hj : st.installments[j]? = some inst) (hs : inst.status = .PAID) :
    ∃ k, (handleXenditWebhook st tok w).state.installments[j]? = some k ∧
      k.status = .PAID := by
  unfold handleXenditWebhook
  repeat' split
  all_goals first
    | exact ⟨inst, hj, hs⟩
    | (refine status_preserved_map_if _ _ _ (fun x => ?_) j inst hj hs;
        exact Or.inl rfl)

/-- The handler `manualPaymentConfirmation` never moves a `PAID` installment out of
`PAID`. -/
theorem manualPaymentConfirmation_paid_stays (st : DBState)
    (u : Option Nat) (iid : Nat) (inv : String) (gws : Option String)
    (now : Int) (j : Nat) (inst : Installment)
    (hj : st.installments[j]? = some inst) (hs : inst.status = .PAID) :
    ∃ k, (manualPaymentConfirmation st u iid inv gws
        now).state.installments[j]? = some k ∧ k.status = .PAID := by
  unfold manualPaymentConfirmation manualPaymentConfirmation.manualMarkPaid
  repeat' split
  all_goals first
    | exact ⟨inst, hj, hs⟩
    | (refine status_preserved_map_if _ _ _ (fun x => ?_) j inst hj hs;
        exact Or.inl rfl)

/-- The handler `simulatePaymentSuccess` never moves a `PAID` installment out of
`PAID`. -/
theorem simulatePaymentSuccess_paid_stays (st : DBState) (iid : Nat)
    (ext : String) (now : Int) (j : Nat) (inst : Installment)
    (hj : st.installments[j]? = some inst) (hs : inst.status = .PAID) :
    ∃ k, (simulatePaymentSuccess st iid ext now).state.installments[j]? =
      some k ∧ k.status = .PAID := by
  unfold simulatePaymentSuccess
  repeat' split
  all_goals first
    | exact ⟨inst, hj, hs⟩
    | (refine status_preserved_map_if _ _ _ (fun x => ?_) j inst hj hs;
        exact Or.inl rfl)

/-- No payment operation moves a `PAID` installment out of `PAID`. -/
theorem applyPayOp_paid_stays (st : DBState) (op : PayOp) (j : Nat)
    (inst : Installment) (hj : st.installments[j]? = some inst)
    (hs : inst.status = .PAID) :
    ∃ k, (applyPayOp st op).state.installments[j]? = some k ∧
      k.status = .PAID := by
  cases op with
  | payInst u iid m now key gw =>
    exact processInstallmentPayment_paid_stays st u iid m now key gw j inst
      hj hs
  | webhook tok w => exact handleXenditWebhook_paid_stays st tok w j inst hj hs
  | manualConfirm u iid inv gws now =>
    exact manualPaymentConfirmation_paid_stays st u iid inv gws now j inst
      hj hs
  | simulate iid ext now =>
    exact simulatePaymentSuccess_paid_stays st iid ext now j inst hj hs

/-- Payment operations preserve distinctness of installment ids. -/
theorem applyPayOp_unique (st : DBState) (op : PayOp)
    (hu : uniqueInstallmentIds st) :
    uniqueInstallmentIds (applyPayOp st op).state := by
  unfold uniqueInstallmentIds at *
  rw [applyPayOp_ids]
  exact hu

/-- One payment operation preserves the paid-amount invariant, given its
webhook side condition. -/
theorem applyPayOp_paid_inv (st : DBState) (op : PayOp)
    (hu : uniqueInstallmentIds st) (hp : paidAmountInvariant st)
    (hok : webhookAmountOk st op) :
    paidAmountInvariant (applyPayOp st op).state := by
  cases op with
  | payInst u iid m now key gw =>
    exact processInstallmentPayment_paid_inv st u iid m now key gw hu hp
  | webhook tok w => exact handleXenditWebhook_paid_inv st tok w hu hp hok
  | manualConfirm u iid inv gws now =>
    exact manualPaymentConfirmation_paid_inv st u iid inv gws now hu hp
  | simulate iid ext now =>
    exact simulatePaymentSuccess_paid_inv st iid ext now hu hp

/-- A safe trace of payment operations preserves the paid-amount
invariant. -/
theorem runPayOps_paid_inv (ops : List PayOp) (st : DBState)
    (hu : uniqueInstallmentIds st) (hp : paidAmountInvariant st)
    (hsafe : SafeOps st ops) :
    paidAmountInvariant (runPayOps st ops) := by
  induction ops generalizing st with
  | nil => exact hp
  | cons op ops ih =>
    exact ih (applyPayOp st op).state (applyPayOp_unique st op hu)
      (applyPayOp_paid_inv st op hu hp hsafe.1) hsafe.2

/-! ## Claim C1 — paid amount equals amount -/

/-- C1 (amended): over every sequence of payment operations (cash
payment, online payment, webhook processing, manual confirmation,
simulated payment) in which each processed webhook reports exactly the
matched installment's amount, every `PAID` installment has `paidAmount`
equal to its `amount`.  The webhook handler stores the
webhook-reported amount rather than the installment's amount, so the
unrestricted claim fails (see the counterexample). -/
theorem C1_paid_amount_invariant (st : DBState) (ops : List PayOp)
    (hu : uniqueInstallmentIds st) (hp : paidAmountInvariant st)
    (hsafe : SafeOps st ops) :
    paidAmountInvariant (runPayOps st ops) :=
  runPayOps_paid_inv ops st hu hp hsafe

/-- Counterexample to C1 as stated: a single authenticated webhook
delivery reporting amount 300 against an installment of amount 500
leaves that installment `PAID` with `paidAmount` 300 ≠ 500. -/
theorem C1_counterexample :
    ((runPayOps demoPayState
        [.webhook true ⟨"PAID", some "ext_20", 300, 77, none⟩]).installments.map
          fun i => (i.id, i.status, i.paidAmount, i.amount))
      = [(10, .UNPAID, none, 1200), (20, .PAID, some 300, 500)]
  ∧ some (300 : ℚ) ≠ some (500 : ℚ) := by
  constructor
  · norm_num [runPayOps, applyPayOp, handleXenditWebhook, demoPayState,
      demoCashInst, demoOnlineInst, List.find?]
  · norm_num

/-- Witness for C1: a cash payment on the demonstration store keeps the
paid-amount invariant. -/
theorem C1_witness :
    paidAmountInvariant
      (runPayOps demoPayState
        [.payInst (some 1) (some 10) none 50 true .err]) :=
  C1_paid_amount_invariant demoPayState
    [.payInst (some 1) (some 10) none 50 true .err]
    (by unfold uniqueInstallmentIds; decide)
    (by unfold paidAmountInvariant; decide) ⟨trivial, trivial⟩

/-! ## Claim C2 — PAID is terminal -/

/-- C2 (amended): no payment operation ever moves a `PAID` installment
out of `PAID`, and the cash-payment and manual-confirmation handlers
reject an already-paid installment with an already-paid error and no
state change; the webhook handler and the simulated payment, however, do
not check the current status and overwrite `paidAmount`, `paidAt` and
`paymentMethod` of a `PAID` installment (see the counterexample). -/
theorem C2_paid_immutable (st : DBState) (op : PayOp) :
    (∀ (j : Nat) (inst : Installment),
        st.installments[j]? = some inst → inst.status = .PAID →
        ∃ k, (applyPayOp st op).state.installments[j]? = some k ∧
          k.status = .PAID)
  ∧ (∀ (u iid : Nat) (m : Option String) (now : Int) (key : Bool)
        (gw : GatewayOutcome) (inst : Installment) (booking : Booking),
        op = PayOp.payInst (some u) (some iid) m now key gw →
        (m.any fun s => !(validPaymentMethods.contains s)) = false →
        st.installments.find? (fun i => i.id == iid) = some inst →
        st.bookings.find? (fun b => b.id == inst.bookingId && b.tenantId == u)
          = some booking →
        inst.status = .PAID →
        applyPayOp st op = ⟨400, false, "Installment is already paid", st⟩)
  ∧ (∀ (u iid : Nat) (inv : String) (gws : Option String) (now : Int)
        (inst : Installment) (booking : Booking),
        op = PayOp.manualConfirm (some u) iid inv gws now →
        st.installments.find?
            (fun i => i.id == iid && i.xenditInvoiceId == some inv)
          = some inst →
        st.bookings.find? (fun b => b.id == inst.bookingId && b.tenantId == u)
          = some booking →
        inst.status = .PAID →
        applyPayOp st op = ⟨400, false, "Installment already paid", st⟩) := by
  refine ⟨fun j inst hj hs => applyPayOp_paid_stays st op j inst hj hs, ?_, ?_⟩
  · rintro u iid m now key gw inst booking rfl hm hfind hbook hs
    show processInstallmentPayment st (some u) (some iid) m now key gw = _
    have hsb : (inst.status == InstallmentStatus.PAID) = true := by
      simp [hs]
    simp only [processInstallmentPayment, hm, Bool.false_eq_true, if_false,
      hfind, hbook, hsb, if_true]
  · rintro u iid inv gws now inst booking rfl hfind hbook hs
    show manualPaymentConfirmation st (some u) iid inv gws now = _
    have hsb : (inst.status == InstallmentStatus.PAID) = true := by
      simp [hs]
    simp only [manualPaymentConfirmation, hfind, hbook, hsb, if_true]

/-- Counterexample to C2 as stated: `simulatePaymentSuccess` on an
installment already `PAID` at time 10 by bank transfer overwrites its
`paidAt` to 99 and its `paymentMethod` to `CREDIT_CARD`. -/
theorem C2_counterexample :
    ((simulatePaymentSuccess demoPaidState 30 "ext_30"
        99).state.installments.map
          fun i => (i.id, i.status, i.paidAt, i.paymentMethod))
      = [(30, .PAID, some 99, some "CREDIT_CARD")]
  ∧ some (99 : Int) ≠ some (10 : Int)
  ∧ some "CREDIT_CARD" ≠ some "BANK_TRANSFER" := by
  refine ⟨?_, by decide, by decide⟩
  norm_num [simulatePaymentSuccess, demoPaidState, demoPaidInst, List.find?]

/-- Witness for C2: a second cash-payment request against the
already-paid installment returns the already-paid error and leaves the
store unchanged. -/
theorem C2_witness :
    applyPayOp demoPaidState (.payInst (some 2) (some 30) none 50 true .err)
      = ⟨400, false, "Installment is already paid", demoPaidState⟩ :=
  (C2_paid_immutable demoPaidState
      (.payInst (some 2) (some 30) none 50 true .err)).2.1
    2 30 none 50 true .err demoPaidInst demoOnlineBooking rfl rfl rfl rfl rfl

/-! ## Claim C6 — cash double payment -/

/-- C6: calling `payInstallment` twice on the same unpaid installment of
a `CASH` booking: the first call returns success, marks the installment
`PAID` with `paidAmount` equal to its amount, and appends exactly one
`COMPLETED` payment transaction; the second call fails with the
already-paid error and leaves the store — in particular the transaction
table — exactly as the first call left it. -/
theorem C6_cash_double_pay (st : DBState) (u iid : Nat) (m m2 : Option String)
    (now1 now2 : Int) (key1 key2 : Bool) (gw1 gw2 : GatewayOutcome)
    (inst : Installment) (booking : Booking)
    (hm : (m.any fun s => !(validPaymentMethods.contains s)) = false)
    (hm2 : (m2.any fun s => !(validPaymentMethods.contains s)) = false)
    (hfind : st.installments.find? (fun i => i.id == iid) = some inst)
    (hbook : st.bookings.find?
        (fun b => b.id == inst.bookingId && b.tenantId == u) = some booking)
    (hunpaid : inst.status = .UNPAID)
    (hcash : booking.paymentType = "CASH") :
    processInstallmentPayment st (some u) (some iid) m now1 key1 gw1
      = ⟨200, true, "Cash payment recorded successfully",
          { st with
            installments := st.installments.map fun x =>
              if x.id == iid then
                { x with
                  status := .PAID, paidAt := some now1,
                  paidAmount := some inst.amount,
                  paymentMethod := some (finalCashMethod m) }
              else x,
            paymentTransactions := st.paymentTransactions ++
              [{ installmentId := some iid, bookingId := booking.id,
                 amount := inst.amount, paymentMethod := finalCashMethod m,
                 paymentType := "CASH", status := .COMPLETED,
                 paidAt := some now1 }] }⟩
  ∧ ((processInstallmentPayment st (some u) (some iid) m now1 key1
        gw1).state.installments.find? (fun i => i.id == iid)
      = some { inst with
               status := .PAID, paidAt := some now1,
               paidAmount := some inst.amount,
               paymentMethod := some (finalCashMethod m) })
  ∧ processInstallmentPayment
      (processInstallmentPayment st (some u) (some iid) m now1 key1 gw1).state
      (some u) (some iid) m2 now2 key2 gw2
      = ⟨400, false, "Installment is already paid",
          (processInstallmentPayment st (some u) (some iid) m now1 key1
            gw1).state⟩ := by
  have hsb : (inst.status == InstallmentStatus.PAID) = false := by
    simp [hunpaid]
  have hcb : (booking.paymentType == "CASH") = true := by
    simp [hcash]
  have h1 : processInstallmentPayment st (some u) (some iid) m now1 key1 gw1
      = ⟨200, true, "Cash payment recorded successfully",
          { st with
            installments := st.installments.map fun x =>
              if x.id == iid then
                { x with
                  status := .PAID, paidAt := some now1,
                  paidAmount := some inst.amount,
                  paymentMethod := some (finalCashMethod m) }
              else x,
            paymentTransactions := st.paymentTransactions ++
              [{ installmentId := some iid, bookingId := booking.id,
                 amount := inst.amount, paymentMethod := finalCashMethod m,
                 paymentType := "CASH", status := .COMPLETED,
                 paidAt := some now1 }] }⟩ := by
    simp only [processInstallmentPayment, hm, Bool.false_eq_true, if_false,
      hfind, hbook, hsb, hcb, if_true]
  have hfind2 : (processInstallmentPayment st (some u) (some iid) m now1 key1
      gw1).state.installments.find? (fun i => i.id == iid)
      = some { inst with
               status := .PAID, paidAt := some now1,
               paidAmount := some inst.amount,
               paymentMethod := some (finalCashMethod m) } := by
    rw [h1]
    have := find?_id_map_update st.installments iid
      (fun x =>
        { x with
          status := .PAID, paidAt := some now1,
          paidAmount := some inst.amount,
          paymentMethod := some (finalCashMethod m) })
      (fun x => rfl)
    rw [this, hfind]
    rfl
  refine ⟨h1, hfind2, ?_⟩
  rw [h1]
  have hfindL : (st.installments.map fun x =>
      if x.id == iid then
        { x with
          status := .PAID, paidAt := some now1,
          paidAmount := some inst.amount,
          paymentMethod := some (finalCashMethod m) }
      else x).find? (fun i => i.id == iid)
      = some { inst with
               status := .PAID, paidAt := some now1,
               paidAmount := some inst.amount,
               paymentMethod := some (finalCashMethod m) } := by
    rw [find?_id_map_update st.installments iid
        (fun x =>
          { x with
            status := .PAID, paidAt := some now1,
            paidAmount := some inst.amount,
            paymentMethod := some (finalCashMethod m) })
        (fun x => rfl), hfind]
    rfl
  simp only [processInstallmentPayment, hm2, Bool.false_eq_true, if_false,
    hfindL, hbook, beq_self_eq_true, if_true]

/-- Witness for C6: paying installment 10 of the demonstration `CASH`
booking twice — the second call is rejected as already paid with no
state change. -/
theorem C6_witness :
    processInstallmentPayment
      (processInstallmentPayment demoPayState (some 1) (some 10) none 5 true
        .err).state
      (some 1) (some 10) none 6 true .err
      = ⟨400, false, "Installment is already paid",
          (processInstallmentPayment demoPayState (some 1) (some 10) none 5
            true .err).state⟩ :=
  (C6_cash_double_pay demoPayState 1 10 none none 5 6 true true .err .err
      demoCashInst demoCashBooking rfl rfl rfl rfl rfl rfl).2.2

/-! ## Claim C7 — webhook for a missing installment -/

/-- C7 (code bug): an authenticated `PAID` webhook whose external id
matches no installment is answered with HTTP status 404, not with the
HTTP 200 acknowledgement that the handler's own comment ("Always
respond with 200 to acknowledge webhook") and the specification
prescribe; the store is left unchanged and no unhandled error is
raised. -/
theorem C7_webhook_missing_installment :
    handleXenditWebhook demoPayState true
        ⟨"PAID", some "no_such_ext", 100, 5, none⟩
      = ⟨404, false, "Installment not found", demoPayState⟩
  ∧ (404 : Nat) ≠ 200 :=
  ⟨rfl, by decide⟩

/-! ## Claim C8 — gateway failure leaves no partial state -/

/-- C8: when the gateway invoice creation fails during `payInstallment`
on an `ONLINE` booking, the caller receives a failed (500) response and
the store is returned exactly unchanged: no gateway ids are stored on
the installment and no payment transaction row is created. -/
theorem C8_gateway_failure_no_write (st : DBState) (u iid : Nat)
    (m : Option String) (now : Int) (inst : Installment) (booking : Booking)
    (hm : (m.any fun s => !(validPaymentMethods.contains s)) = false)
    (hfind : st.installments.find? (fun i => i.id == iid) = some inst)
    (hbook : st.bookings.find?
        (fun b => b.id == inst.bookingId && b.tenantId == u) = some booking)
    (hunpaid : inst.status = .UNPAID)
    (honline : booking.paymentType = "ONLINE") :
    processInstallmentPayment st (some u) (some iid) m now true .err
      = ⟨500, false, "Failed to create payment invoice", st⟩ := by
  have hsb : (inst.status == InstallmentStatus.PAID) = false := by
    simp [hunpaid]
  have hcb : (booking.paymentType == "CASH") = false := by
    simp [honline]
  simp only [processInstallmentPayment, hm, Bool.false_eq_true, if_false,
    hfind, hbook, hsb, hcb, Bool.not_true, if_true]

/-- Witness for C8: a failing invoice creation against the demonstration
`ONLINE` booking returns 500 and the unchanged store. -/
theorem C8_witness :
    processInstallmentPayment demoPayState (some 2) (some 20) none 5 true .err
      = ⟨500, false, "Failed to create payment invoice", demoPayState⟩ :=
  C8_gateway_failure_no_write demoPayState 2 20 none 5 demoOnlineInst
    demoOnlineBooking rfl rfl rfl rfl rfl

/-! ## Claim C9 — contract issuance fallback -/

/-- The coercion `finalPaymentMethod` always evaluates to `CASH`: the only accepted
cash method is `CASH` itself. -/
theorem finalCashMethod_eq (m : Option String) :
    finalCashMethod m = "CASH" := by
  cases m with
  | none => rfl
  | some s =>
    show (if (["CASH"] : List String).contains s then s else "CASH") = "CASH"
    by_cases h : (["CASH"] : List String).contains s
    · rw [if_pos h]
      have h2 : s = "CASH" := by simpa [List.contains] using h
      rw [h2]
    · rw [if_neg h]

/-- Looking up a freshly inserted row after an id-preserving conditional
update on its fresh id returns the updated row (no pre-existing row has
that id). -/
theorem find?_key_append_update_fresh {α : Type} (key : α → Nat)
    (l : List α) (b : α) (v : α → α) (hid : ∀ x, key (v x) = key x)
    (nid : Nat) (hfresh : ∀ x ∈ l, key x ≠ nid) (hb : key b = nid) :
    ((l ++ [b]).map fun x => if key x == nid then v x else x).find?
        (fun x => key x == nid) = some (v b) := by
  induction l with
  | nil =>
    simp only [List.nil_append, List.map_cons, List.map_nil]
    have hpb : (key b == nid) = true := by simpa using hb
    rw [if_pos hpb]
    rw [List.find?_cons_of_pos (p := fun x => key x == nid) _
      (by simpa [hid] using hb)]
  | cons a l ih =>
    have ha : key a ≠ nid := hfresh a (List.mem_cons_self a l)
    have hpa : (key a == nid) = false := by simpa using ha
    simp only [List.cons_append, List.map_cons]
    rw [if_neg (by simp [hpa])]
    rw [List.find?_cons_of_neg (p := fun x => key x == nid) _ (by simp [hpa])]
    exact ih fun x hx => hfresh x (List.mem_cons_of_mem a hx)

/-- C9: when contract issuance fails during `createBooking` (after the
booking, conflict record and installments were created), the request
still succeeds with 201: a placeholder contract URL is attached, a
rental agreement row carrying the placeholder is inserted, and the
booking is set to `CONFIRMED` — the same status and HTTP outcome as
when the PDF service succeeds. -/
theorem C9_contract_fallback (st : DBState) (uid : Nat)
    (req : CreateBookingReq) (now : Int) (prop : Property)
    (hpt : req.paymentType = some "CASH" ∨ req.paymentType = some "ONLINE")
    (hprop : st.properties.find? (fun p => p.id == req.propertyId)
      = some prop)
    (hnoconf : st.bookingConflicts.filter
      (conflictMatches req.propertyId req.startDate req.endDate) = [])
    (hfresh : ∀ b ∈ st.bookings, b.id ≠ st.nextId) :
    (createBooking st (some uid) req none now).httpStatus = 201
  ∧ (createBooking st (some uid) req none now).success = true
  ∧ (createBooking st (some uid) req none now).state.bookings.find?
        (fun b => b.id == st.nextId)
      = some { id := st.nextId, propertyId := req.propertyId,
               tenantId := uid, landlordId := prop.ownerId,
               startDate := req.startDate, endDate := req.endDate,
               totalAmount := req.totalAmount,
               securityDeposit := req.securityDeposit,
               paymentType := req.paymentType.getD "CASH",
               installmentCount := req.installmentCount,
               status := "CONFIRMED",
               contractPdfUrl :=
                 some ("https://storage.example.com/contracts/"
                   ++ toString st.nextId ++ ".pdf"),
               contractGeneratedAt := some now }
  ∧ (createBooking st (some uid) req none now).state.rentalAgreements
      = st.rentalAgreements ++
        [{ id := st.nextId + 3 + 2 * req.installmentCount,
           leaseId := st.nextId + 1,
           pdfUrl := "https://storage.example.com/contracts/"
             ++ toString st.nextId ++ ".pdf",
           publicId := "contract_" ++ toString st.nextId,
           fileName := "rental_agreement_" ++ toString st.nextId ++ ".pdf",
           fileSize := 1024000 }]
  ∧ ∀ pdfR : PdfResult,
      (createBooking st (some uid) req (some pdfR) now).httpStatus = 201
      ∧ (createBooking st (some uid) req (some pdfR) now).state.bookings.find?
            (fun b => b.id == st.nextId)
          = some { id := st.nextId, propertyId := req.propertyId,
                   tenantId := uid, landlordId := prop.ownerId,
                   startDate := req.startDate, endDate := req.endDate,
                   totalAmount := req.totalAmount,
                   securityDeposit := req.securityDeposit,
                   paymentType := req.paymentType.getD "CASH",
                   installmentCount := req.installmentCount,
                   status := "CONFIRMED",
                   contractPdfUrl := some pdfR.url,
                   contractGeneratedAt := some now } := by
  have hv : (req.paymentType == some "CASH"
      || req.paymentType == some "ONLINE") = true := by
    rcases hpt with h | h <;> simp [h]
  have hlen : (st.bookingConflicts.filter
      (conflictMatches req.propertyId req.startDate
        req.endDate)).length = 0 := by
    rw [hnoconf]
    rfl
  refine ⟨?_, ?_, ?_, ?_, ?_⟩
  · simp only [createBooking, hv, Bool.not_true, Bool.false_eq_true,
      if_false, hprop, hlen]
    rfl
  · simp only [createBooking, hv, Bool.not_true, Bool.false_eq_true,
      if_false, hprop, hlen]
    rfl
  · simp only [createBooking, hv, Bool.not_true, Bool.false_eq_true,
      if_false, hprop, hlen]
    rw [if_neg (by simp)]
    rw [find?_key_append_update_fresh (fun b : Booking => b.id) st.bookings
      ({ id := st.nextId, propertyId := req.propertyId, tenantId := uid,
         landlordId := prop.ownerId, startDate := req.startDate,
         endDate := req.endDate, totalAmount := req.totalAmount,
         securityDeposit := req.securityDeposit,
         paymentType := req.paymentType.getD "CASH",
         installmentCount := req.installmentCount,
         status := "PENDING" } : Booking)
      (fun b =>
        { b with
          contractPdfUrl :=
            some ("https://storage.example.com/contracts/"
              ++ toString st.nextId ++ ".pdf"),
          contractGeneratedAt := some now, status := "CONFIRMED" })
      (fun x => rfl) st.nextId hfresh rfl]
  · simp only [createBooking, hv, Bool.not_true, Bool.false_eq_true,
      if_false, hprop, hlen]
    rw [if_neg (by simp)]
  · intro pdfR
    constructor
    · simp only [createBooking, hv, Bool.not_true, Bool.false_eq_true,
        if_false, hprop, hlen]
      rfl
    · simp only [createBooking, hv, Bool.not_true, Bool.false_eq_true,
        if_false, hprop, hlen]
      rw [if_neg (by simp)]
      rw [find?_key_append_update_fresh (fun b : Booking => b.id) st.bookings
        ({ id := st.nextId, propertyId := req.propertyId, tenantId := uid,
           landlordId := prop.ownerId, startDate := req.startDate,
           endDate := req.endDate, totalAmount := req.totalAmount,
           securityDeposit := req.securityDeposit,
           paymentType := req.paymentType.getD "CASH",
           installmentCount := req.installmentCount,
           status := "PENDING" } : Booking)
        (fun b =>
          { b with
            contractPdfUrl := some pdfR.url,
            contractGeneratedAt := some now, status := "CONFIRMED" })
        (fun x => rfl) st.nextId hfresh rfl]

/-- Witness for C9: creating the demonstration booking with a failing
PDF service yields a `CONFIRMED` booking with the placeholder contract
URL. -/
theorem C9_witness :
    (createBooking demoScheduleState (some 1)
        ⟨100, ⟨2025, 3, 1⟩, ⟨2025, 3, 31⟩, 1200, none, some "CASH", 3⟩
        none 0).state.bookings.find? (fun b => b.id == 300)
      = some { id := 300, propertyId := 100, tenantId := 1, landlordId := 5,
               startDate := ⟨2025, 3, 1⟩, endDate := ⟨2025, 3, 31⟩,
               totalAmount := 1200, securityDeposit := none,
               paymentType := "CASH", installmentCount := 3,
               status := "CONFIRMED",
               contractPdfUrl :=
                 some ("https://storage.example.com/contracts/300.pdf"),
               contractGeneratedAt := some 0 } :=
  (C9_contract_fallback demoScheduleState 1
      ⟨100, ⟨2025, 3, 1⟩, ⟨2025, 3, 31⟩, 1200, none, some "CASH", 3⟩ 0
      demoProperty (Or.inl rfl) rfl rfl
      (fun b hb => absurd hb (List.not_mem_nil b))).2.2.1

/-! ## Claim C10 — branch follows the booking's payment type -/

/-- C10 (amended): which path `payInstallment` takes is decided by the
booking's `paymentType` fixed at creation, not by the request's
`paymentMethod` — among requests whose `paymentMethod` passes
validation (absent or one of BANK_TRANSFER, CASH, EWALLET,
CREDIT_CARD).  On a `CASH` booking any such request is coerced to
method `CASH` and the installment is marked `PAID` immediately; on an
`ONLINE` booking even a request with method `CASH` creates a gateway
invoice, stores its ids, appends a `PENDING` transaction and leaves the
installment not `PAID`.  A request with an invalid `paymentMethod` is
rejected with 400 before either path (see the counterexample). -/
theorem C10_payment_type_branch (st : DBState) (u iid : Nat)
    (inst : Installment) (booking : Booking)
    (hfind : st.installments.find? (fun i => i.id == iid) = some inst)
    (hbook : st.bookings.find?
        (fun b => b.id == inst.bookingId && b.tenantId == u) = some booking)
    (hunpaid : inst.status = .UNPAID) :
    (booking.paymentType = "CASH" →
      ∀ (m : Option String) (now : Int) (key : Bool) (gw : GatewayOutcome),
        (m.any fun s => !(validPaymentMethods.contains s)) = false →
        (processInstallmentPayment st (some u) (some iid) m now key
            gw).httpStatus = 200
        ∧ ((processInstallmentPayment st (some u) (some iid) m now key
              gw).state.installments.find? (fun i => i.id == iid)
            = some { inst with
                     status := .PAID, paidAt := some now,
                     paidAmount := some inst.amount,
                     paymentMethod := some "CASH" }))
  ∧ (booking.paymentType = "ONLINE" →
      ∀ (now : Int) (invId url : String),
        (processInstallmentPayment st (some u) (some iid) (some "CASH") now
            true (.ok invId url)).httpStatus = 200
        ∧ ((processInstallmentPayment st (some u) (some iid) (some "CASH")
              now true (.ok invId url)).state.installments.find?
                (fun i => i.id == iid)
            = some { inst with
                     xenditExternalId :=
                       some ("installment_" ++ toString iid ++ "_"
                         ++ toString now),
                     xenditInvoiceId := some invId })
        ∧ (processInstallmentPayment st (some u) (some iid) (some "CASH")
              now true (.ok invId url)).state.paymentTransactions
            = st.paymentTransactions ++
              [{ installmentId := some iid, bookingId := booking.id,
                 amount := inst.amount, paymentMethod := "BANK_TRANSFER",
                 paymentType := "ONLINE", xenditInvoiceId := some invId,
                 xenditExternalId :=
                   some ("installment_" ++ toString iid ++ "_"
                     ++ toString now),
                 status := .PENDING }]) := by
  have hsb : (inst.status == InstallmentStatus.PAID) = false := by
    simp [hunpaid]
  constructor
  · intro hcash m now key gw hm
    have hcb : (booking.paymentType == "CASH") = true := by simp [hcash]
    have h1 : processInstallmentPayment st (some u) (some iid) m now key gw
        = ⟨200, true, "Cash payment recorded successfully",
            { st with
              installments := st.installments.map fun x =>
                if x.id == iid then
                  { x with
                    status := .PAID, paidAt := some now,
                    paidAmount := some inst.amount,
                    paymentMethod := some (finalCashMethod m) }
                else x,
              paymentTransactions := st.paymentTransactions ++
                [{ installmentId := some iid, bookingId := booking.id,
                   amount := inst.amount,
                   paymentMethod := finalCashMethod m,
                   paymentType := "CASH", status := .COMPLETED,
                   paidAt := some now }] }⟩ := by
      simp only [processInstallmentPayment, hm, Bool.false_eq_true, if_false,
        hfind, hbook, hsb, hcb, if_true]
    rw [h1]
    refine ⟨rfl, ?_⟩
    rw [find?_id_map_update st.installments iid
        (fun x =>
          { x with
            status := .PAID, paidAt := some now,
            paidAmount := some inst.amount,
            paymentMethod := some (finalCashMethod m) })
        (fun x => rfl), hfind, finalCashMethod_eq]
    rfl
  · intro honline now invId url
    have hcb : (booking.paymentType == "CASH") = false := by simp [honline]
    have hm : ((some "CASH" : Option String).any
        fun s => !(validPaymentMethods.contains s)) = false := rfl
    have h1 : processInstallmentPayment st (some u) (some iid) (some "CASH")
        now true (.ok invId url)
        = ⟨200, true, "Payment invoice created successfully",
            { st with
              installments := st.installments.map fun x =>
                if x.id == iid then
                  { x with
                    xenditExternalId :=
                      some ("installment_" ++ toString iid ++ "_"
                        ++ toString now),
                    xenditInvoiceId := some invId }
                else x,
              paymentTransactions := st.paymentTransactions ++
                [{ installmentId := some iid, bookingId := booking.id,
                   amount := inst.amount, paymentMethod := "BANK_TRANSFER",
                   paymentType := "ONLINE", xenditInvoiceId := some invId,
                   xenditExternalId :=
                     some ("installment_" ++ toString iid ++ "_"
                       ++ toString now),
                   status := .PENDING }] }⟩ := by
      simp only [processInstallmentPayment, hm, Bool.false_eq_true, if_false,
        hfind, hbook, hsb, hcb, Bool.not_true, if_true]
    rw [h1]
    refine ⟨rfl, ?_, rfl⟩
    rw [find?_id_map_update st.installments iid
        (fun x =>
          { x with
            xenditExternalId :=
              some ("installment_" ++ toString iid ++ "_" ++ toString now),
            xenditInvoiceId := some invId })
        (fun x => rfl), hfind]
    rfl

/-- Counterexample to C10 as stated: on the `CASH` booking, a request
with the invalid payment method `PAYPAL` is rejected with 400 before any
coercion, leaving the installment unpaid — it is not "coerced to CASH
and marked PAID". -/
theorem C10_counterexample :
    processInstallmentPayment demoPayState (some 1) (some 10) (some "PAYPAL")
        5 true .err
      = ⟨400, false, "Invalid payment method", demoPayState⟩
  ∧ demoCashInst.status = .UNPAID
  ∧ "PAYPAL" ≠ "CASH" :=
  ⟨rfl, rfl, by decide⟩

/-- Witness for C10: an `EWALLET` request on the `CASH` booking is
coerced to `CASH` and paid immediately; a `CASH` request on the `ONLINE`
booking stores gateway ids and leaves the status untouched. -/
theorem C10_witness :
    ((processInstallmentPayment demoPayState (some 1) (some 10)
        (some "EWALLET") 5 true .err).state.installments.find?
          (fun i => i.id == 10)
      = some { demoCashInst with
               status := .PAID, paidAt := some 5,
               paidAmount := some demoCashInst.amount,
               paymentMethod := some "CASH" })
  ∧ ((processInstallmentPayment demoPayState (some 2) (some 20)
        (some "CASH") 7 true (.ok "invX" "urlX")).state.installments.find?
          (fun i => i.id == 20)
      = some { demoOnlineInst with
               xenditExternalId :=
                 some ("installment_" ++ toString 20 ++ "_" ++ toString 7),
               xenditInvoiceId := some "invX" }) :=
  ⟨((C10_payment_type_branch demoPayState 1 10 demoCashInst demoCashBooking
      rfl rfl rfl).1 rfl (some "EWALLET") 5 true .err rfl).2,
   (((C10_payment_type_branch demoPayState 2 20 demoOnlineInst
      demoOnlineBooking rfl rfl rfl).2 rfl 7 "invX" "urlX").2).1⟩
